import Mathlib

/-!
Shallow embedding of the snake-u game core (`src/snake-u/main.c`):
data model, input mapping, snake movement, collision & scoring, and the
fixed-timestep frame clock of the main loop, together with theorems about
the claims on this program.

Conventions of the embedding:
* C `unsigned int` arithmetic on coordinates, score and length is modelled
  on `Nat` with explicit reduction `% 2 ^ 32` wherever the C code can
  overflow or underflow.
* The fixed parallel arrays `body_x` / `body_y` are modelled as total
  functions `Nat → Nat` (the C arrays have a fixed capacity and reads
  beyond the live region return whatever was stored there).
* `rand()` results are passed in as explicit `Nat` arguments.
* `double timeCounter` only ever holds sums and differences of integral
  tick counts in this program, so it is modelled on `Int` (exact for all
  realizable magnitudes).
-/

namespace SnakeU

/-- `2^32`, the modulus of C `unsigned int` arithmetic. -/
def UINT_MOD : Nat := 2 ^ 32

/-- `#define BLOCK_SIZE 20` -/
def BLOCK_SIZE : Nat := 20

/-- enum direction { up, right, down, left, none } -/
inductive Direction where
  | up
  | right
  | down
  | left
  | none
deriving DecidableEq, Repr

/-- `struct snake`: head coordinates, length, current direction, and the
parallel body-coordinate arrays (modelled as total index functions). -/
structure Snake where
  x : Nat
  y : Nat
  length : Nat
  direction : Direction
  body_x : Nat → Nat
  body_y : Nat → Nat

/-- `struct apple`: the food coordinates. -/
structure Apple where
  x : Nat
  y : Nat

/-- The mutable globals the game core works on: the snake, the apple, the
score, and the static `previousDirection` of `moveSnake`. -/
structure GameState where
  snake : Snake
  apple : Apple
  score : Nat
  previousDirection : Direction

/-- The global initializer `snake = {300, 340, 4, none}`; the body arrays
have static storage duration, hence start zeroed. -/
def snakeInit : Snake :=
  { x := 300, y := 340, length := 4, direction := Direction.none
  , body_x := fun _ => 0, body_y := fun _ => 0 }

/-- The setup loop in `main` (lines 143-146): for `i < length - 1`,
`body_x[i] = x - (i+1)*BLOCK_SIZE`, `body_y[i] = y`. -/
def setupStartingBody (s : Snake) : Snake :=
  { s with
    body_x := fun i => if i < s.length - 1 then s.x - (i + 1) * BLOCK_SIZE else s.body_x i
  , body_y := fun i => if i < s.length - 1 then s.y else s.body_y i }

/-- The initial game state: snake after the setup loop, `apple = {980, 340}`,
`score = 0`, and `previousDirection = none`. -/
def initialGame : GameState :=
  { snake := setupStartingBody snakeInit
  , apple := { x := 980, y := 340 }
  , score := 0
  , previousDirection := Direction.none }

/-- The anti-reversal switch at the top of `moveSnake` (lines 294-314):
given the direction of the previous tick and the requested one, the direction
actually used this tick. A request that exactly reverses the previous
direction is replaced by the previous direction; with previous `none`, a
request of `left` is likewise replaced by `none`. -/
def resolveDirection (previousDirection d : Direction) : Direction :=
  match previousDirection with
  | Direction.up => if d = Direction.down then Direction.up else d
  | Direction.right => if d = Direction.left then Direction.right else d
  | Direction.down => if d = Direction.up then Direction.down else d
  | Direction.left => if d = Direction.right then Direction.left else d
  | Direction.none => if d = Direction.left then Direction.none else d

/-- The descending body-shift loop of `moveSnake` (lines 340-343) on one
array: `shiftDownFrom a n` runs `a[i] = a[i-1]` for `i = n` down to `1`. -/
def shiftDownFrom (a : Nat → Nat) : Nat → (Nat → Nat)
  | 0 => a
  | n + 1 => shiftDownFrom (Function.update a (n + 1) (a n)) n

/-- `moveSnake` (lines 291-351): resolve the direction against the previous
direction of the previous tick; on `none` return without moving (leaving
`previousDirection` untouched); otherwise advance the head one block in
the resolved direction (C unsigned wrap-around made explicit), shift the
body history down by one, store the old head in `body[0]`, and persist the
resolved direction as `previousDirection`. The shift loop start
`length - 2` is Nat subtraction; for `length < 2` the C loop index
underflows into out-of-bounds writes (undefined behavior), so theorems
assume `2 ≤ length` (always true in reachable states, where length starts
at 4 and never decreases). -/
def moveSnake (g : GameState) : GameState :=
  let d := resolveDirection g.previousDirection g.snake.direction
  let temp_x := g.snake.x
  let temp_y := g.snake.y
  if d = Direction.none then
    { g with snake := { g.snake with direction := d } }
  else
    let x' : Nat :=
      match d with
      | Direction.right => (g.snake.x + BLOCK_SIZE) % UINT_MOD
      | Direction.left => (g.snake.x + (UINT_MOD - BLOCK_SIZE)) % UINT_MOD
      | _ => g.snake.x
    let y' : Nat :=
      match d with
      | Direction.up => (g.snake.y + (UINT_MOD - BLOCK_SIZE)) % UINT_MOD
      | Direction.down => (g.snake.y + BLOCK_SIZE) % UINT_MOD
      | _ => g.snake.y
    let bx := Function.update (shiftDownFrom g.snake.body_x (g.snake.length - 2)) 0 temp_x
    let bY := Function.update (shiftDownFrom g.snake.body_y (g.snake.length - 2)) 0 temp_y
    { g with
      snake := { g.snake with direction := d, x := x', y := y', body_x := bx, body_y := bY }
    , previousDirection := d }

/-- The self-collision loop of `checkSnakeCollision` (lines 399-401):
whether the head coincides with any live body segment `i < length - 1`. -/
def selfCollision (s : Snake) : Bool :=
  (List.range (s.length - 1)).any fun i => s.x == s.body_x i && s.y == s.body_y i

/-- `checkSnakeCollision` (lines 397-420) with the two `rand()` draws passed
in as `r1` (for x) and `r2` (for y): returns the terminal verdict and the
updated state. Self-collision and border collision return `true` leaving
the state untouched; landing on the apple increments score and length and
relocates the apple to `(r % (1240/20))*20 + 20`, `(r % (680/20))*20 + 20`;
in all non-terminal cases the result is `false`. -/
def checkSnakeCollision (g : GameState) (r1 r2 : Nat) : Bool × GameState :=
  if selfCollision g.snake then (true, g)
  else if g.snake.x < 20 ∨ 1260 ≤ g.snake.x then (true, g)
  else if g.snake.y < 20 ∨ 700 ≤ g.snake.y then (true, g)
  else if g.snake.x = g.apple.x ∧ g.snake.y = g.apple.y then
    (false,
      { g with
        score := (g.score + 1) % UINT_MOD
      , snake := { g.snake with length := (g.snake.length + 1) % UINT_MOD }
      , apple :=
          { x := (r1 % (1240 / BLOCK_SIZE)) * BLOCK_SIZE + 20
          , y := (r2 % (680 / BLOCK_SIZE)) * BLOCK_SIZE + 20 } })
  else (false, g)

/-- The per-frame block of the main loop (lines 176-177): move the snake,
then evaluate collisions (note: collision is evaluated unconditionally,
also on ticks where the snake did not move). -/
def tick (g : GameState) (r1 r2 : Nat) : Bool × GameState :=
  checkSnakeCollision (moveSnake g) r1 r2

/-- The d-pad rising-edge flags of one successful `VPADRead` (the bits of
`status.trigger` the game inspects). -/
structure ButtonEdges where
  up : Bool
  right : Bool
  down : Bool
  left : Bool
deriving DecidableEq

/-- Outcome of one `VPADRead` poll: success with the d-pad edge flags,
`VPAD_READ_NO_SAMPLES`, `VPAD_READ_INVALID_CONTROLLER`, or any other
(undocumented) error, matching the `switch (error)` in
`handleGamepadInput`. -/
inductive VPADReadResult where
  | success (trigger : ButtonEdges)
  | noSamples
  | invalidController
  | unknownError
deriving DecidableEq

/-- `handleGamepadInput` (lines 200-237) acting on its two observable
globals: given the poll outcome, the current `snake.direction` and the
current `vpad_fatal` flag, returns their new values. On no-samples nothing
changes; on either error the fatal flag is set and the direction is left
alone; on success the first pressed edge in priority order
up, right, down, left becomes the new direction (none pressed: unchanged). -/
def handleGamepadInput (p : VPADReadResult) (dir : Direction) (fatal : Bool) :
    Direction × Bool :=
  match p with
  | VPADReadResult.noSamples => (dir, fatal)
  | VPADReadResult.invalidController => (dir, true)
  | VPADReadResult.unknownError => (dir, true)
  | VPADReadResult.success t =>
      ( if t.up then Direction.up
        else if t.right then Direction.right
        else if t.down then Direction.down
        else if t.left then Direction.left
        else dir
      , fatal )

/-- The frame-clock step of the main loop (lines 160-167): add the elapsed
ticks `delta` to the accumulator; the logical tick fires iff the
accumulator strictly exceeds `interval` (the tick count of
`OSNanosecondsToTicks(FRAME_TIME_NS)`), in which case one interval is
subtracted (not reset to zero). Returns (fired, new accumulator). -/
def clockStep (interval timeCounter delta : Int) : Bool × Int :=
  let tc := timeCounter + delta
  if tc > interval then (true, tc - interval) else (false, tc)

/-- Iterated frame clock over a list of elapsed-time deltas: final
accumulator value and the number of logical ticks fired. -/
def clockRun (interval tc : Int) : List Int → Int × Nat
  | [] => (tc, 0)
  | d :: ds =>
      let s := clockStep interval tc d
      let r := clockRun interval s.2 ds
      (r.1, r.2 + if s.1 then 1 else 0)

/-- The mutable state threaded through the main loop: the game globals,
`vpad_fatal`, `gameOver`, and the clock accumulator `timeCounter`. -/
structure LoopState where
  game : GameState
  vpad_fatal : Bool
  gameOver : Bool
  timeCounter : Int

/-- The environment inputs of one iteration of the outer `while` loop: the
gamepad poll outcome, the elapsed system ticks since the previous
iteration, and the two `rand()` draws a potential apple relocation would
consume. -/
structure IterInput where
  poll : VPADReadResult
  delta : Int
  r1 : Nat
  r2 : Nat

/-- One iteration of the main loop body (lines 155-190): handle gamepad
input, advance the frame clock, run the per-frame block (move + collision)
when the clock fires, then `if (gameOver) break`. Returns the new loop
state and whether the loop breaks after this iteration. Note that
`vpad_fatal` is never consulted by the loop. -/
def loopBody (interval : Int) (ls : LoopState) (inp : IterInput) :
    LoopState × Bool :=
  let hg := handleGamepadInput inp.poll ls.game.snake.direction ls.vpad_fatal
  let g1 : GameState := { ls.game with snake := { ls.game.snake with direction := hg.1 } }
  let cs := clockStep interval ls.timeCounter inp.delta
  if cs.1 then
    let tg := tick g1 inp.r1 inp.r2
    ({ game := tg.2, vpad_fatal := hg.2, gameOver := tg.1, timeCounter := cs.2 }, tg.1)
  else
    ({ game := g1, vpad_fatal := hg.2, gameOver := ls.gameOver, timeCounter := cs.2 }, ls.gameOver)

/-- The main loop run over a list of per-iteration environment inputs,
stopping early when an iteration breaks (snake died). The list length
stands for how long `WHBProcIsRunning()` keeps returning true. -/
def loopRun (interval : Int) (ls : LoopState) : List IterInput → LoopState
  | [] => ls
  | inp :: rest =>
      let s := loopBody interval ls inp
      if s.2 then s.1 else loopRun interval s.1 rest

/-- The collision phase of one tick composed with the movement phase of
the next tick, following the sequencing of `main` (lines 155-190):
`checkSnakeCollision` ends tick T, `handleGamepadInput` may set a new
requested direction `d` between the ticks, and `moveSnake` opens
tick T+1. -/
def eatThenNextMove (g : GameState) (r1 r2 : Nat) (d : Direction) : GameState :=
  let g' := (checkSnakeCollision g r1 r2).2
  moveSnake { g' with snake := { g'.snake with direction := d } }

/-! Concrete states used to instantiate the theorems below on explicit
inputs. -/

/-- A mid-game state: snake of length 4 moving right at (300, 340) with its
body trailing left, apple away from the head. -/
def gMoving : GameState :=
  { snake :=
      { x := 300, y := 340, length := 4, direction := Direction.right
      , body_x := fun i => if i = 0 then 280 else if i = 1 then 260 else if i = 2 then 240 else 0
      , body_y := fun i => if i < 3 then 340 else 0 }
  , apple := { x := 980, y := 340 }
  , score := 0
  , previousDirection := Direction.right }

/-- A state whose head coincides with live body segment 1. -/
def gHit : GameState :=
  { snake :=
      { x := 300, y := 340, length := 4, direction := Direction.up
      , body_x := fun i => if i = 1 then 300 else 100 + i
      , body_y := fun i => if i = 1 then 340 else 100 }
  , apple := { x := 980, y := 340 }
  , score := 3
  , previousDirection := Direction.up }

/-- A state whose head sits on the apple, strictly inside the interior,
with no head/body overlap. -/
def gEat : GameState :=
  { snake :=
      { x := 980, y := 340, length := 4, direction := Direction.right
      , body_x := fun i => if i < 3 then 960 - 20 * i else 0
      , body_y := fun i => if i < 3 then 340 else 0 }
  , apple := { x := 980, y := 340 }
  , score := 0
  , previousDirection := Direction.right }

/-- A state with resolved heading `none` (never moved) but head outside the
interior: collision evaluation on it is terminal although no movement
occurred. -/
def gOutside : GameState :=
  { snake :=
      { x := 0, y := 0, length := 4, direction := Direction.none
      , body_x := fun _ => 100, body_y := fun _ => 100 }
  , apple := { x := 980, y := 340 }
  , score := 0
  , previousDirection := Direction.none }

/-- Loop state around `gMoving` with a fresh clock and no pending flags. -/
def lsMoving : LoopState :=
  { game := gMoving, vpad_fatal := false, gameOver := false, timeCounter := 0 }

/-- An iteration whose poll reports a disconnected controller and whose
clock does not fire. -/
def inpFault : IterInput :=
  { poll := VPADReadResult.invalidController, delta := 0, r1 := 0, r2 := 0 }

/-- An iteration with no new input samples whose clock fires (for
interval 100). -/
def inpTick : IterInput :=
  { poll := VPADReadResult.noSamples, delta := 101, r1 := 0, r2 := 0 }

/-! Helper lemmas. -/

/-- Pointwise effect of the descending shift loop: indices `1..n` receive
the old value of their left neighbour, all other indices are untouched. -/
theorem shiftDownFrom_apply (a : Nat → Nat) (n j : Nat) :
    shiftDownFrom a n j = if 1 ≤ j ∧ j ≤ n then a (j - 1) else a j := by
  induction n generalizing a with
  | zero =>
      have h : ¬(1 ≤ j ∧ j ≤ 0) := by omega
      rw [shiftDownFrom, if_neg h]
  | succ n ih =>
      rw [shiftDownFrom, ih]
      rcases Nat.lt_or_ge j 1 with hj | hj
      · have h0 : ¬(1 ≤ j ∧ j ≤ n) := by omega
        have h1 : ¬(1 ≤ j ∧ j ≤ n + 1) := by omega
        have h2 : j ≠ n + 1 := by omega
        rw [if_neg h0, if_neg h1, Function.update_apply, if_neg h2]
      · by_cases h2 : j ≤ n
        · have h0 : 1 ≤ j ∧ j ≤ n := ⟨hj, h2⟩
          have h1 : 1 ≤ j ∧ j ≤ n + 1 := ⟨hj, by omega⟩
          have h3 : j - 1 ≠ n + 1 := by omega
          rw [if_pos h0, if_pos h1, Function.update_apply, if_neg h3]
        · by_cases h3 : j = n + 1
          · subst h3
            have h0 : ¬(1 ≤ n + 1 ∧ n + 1 ≤ n) := by omega
            have h1 : 1 ≤ n + 1 ∧ n + 1 ≤ n + 1 := by omega
            rw [if_neg h0, if_pos h1, Function.update_apply, if_pos rfl]
            simp
          · have h0 : ¬(1 ≤ j ∧ j ≤ n) := by omega
            have h1 : ¬(1 ≤ j ∧ j ≤ n + 1) := by omega
            rw [if_neg h0, if_neg h1, Function.update_apply, if_neg h3]

/-- `selfCollision` is exactly head/live-body overlap. -/
theorem selfCollision_iff (s : Snake) :
    selfCollision s = true ↔
      ∃ i, i < s.length - 1 ∧ s.x = s.body_x i ∧ s.y = s.body_y i := by
  simp [selfCollision, List.any_eq_true, List.mem_range]

/-- When the resolved direction is not `none`, `moveSnake` keeps the
length, stores the resolved direction in both direction fields, and shifts
the body history, writing the old head into slot 0. -/
theorem moveSnake_spec (g : GameState)
    (hd : resolveDirection g.previousDirection g.snake.direction ≠ Direction.none) :
    (moveSnake g).snake.length = g.snake.length
    ∧ (moveSnake g).previousDirection = resolveDirection g.previousDirection g.snake.direction
    ∧ (moveSnake g).snake.direction = resolveDirection g.previousDirection g.snake.direction
    ∧ (moveSnake g).snake.body_x
        = Function.update (shiftDownFrom g.snake.body_x (g.snake.length - 2)) 0 g.snake.x
    ∧ (moveSnake g).snake.body_y
        = Function.update (shiftDownFrom g.snake.body_y (g.snake.length - 2)) 0 g.snake.y := by
  simp [moveSnake, hd]

/-- When the resolved direction is `none`, `moveSnake` only stores the
resolved direction and changes nothing else (early return). -/
theorem moveSnake_none (g : GameState)
    (hd : resolveDirection g.previousDirection g.snake.direction = Direction.none) :
    moveSnake g = { g with snake := { g.snake with direction := Direction.none } } := by
  simp [moveSnake, hd]

/-- `checkSnakeCollision` never changes the direction fields. -/
theorem check_preserve_dirs (g : GameState) (r1 r2 : Nat) :
    (checkSnakeCollision g r1 r2).2.previousDirection = g.previousDirection
    ∧ (checkSnakeCollision g r1 r2).2.snake.direction = g.snake.direction := by
  unfold checkSnakeCollision
  repeat' split
  all_goals simp

/-- With no head/body overlap, the self-collision scan is negative. -/
theorem selfCollision_eq_false (g : GameState)
    (hno : ∀ i, i < g.snake.length - 1 →
      ¬(g.snake.x = g.snake.body_x i ∧ g.snake.y = g.snake.body_y i)) :
    selfCollision g.snake = false := by
  rw [Bool.eq_false_iff]
  intro hc
  rcases (selfCollision_iff g.snake).1 hc with ⟨i, hi, hx, hy⟩
  exact hno i hi ⟨hx, hy⟩

/-- The apple branch of `checkSnakeCollision` in full: head on the apple,
inside the interior, no overlap. -/
theorem check_eats (g : GameState) (r1 r2 : Nat)
    (hno : ∀ i, i < g.snake.length - 1 →
      ¬(g.snake.x = g.snake.body_x i ∧ g.snake.y = g.snake.body_y i))
    (hx1 : 20 ≤ g.snake.x) (hx2 : g.snake.x < 1260)
    (hy1 : 20 ≤ g.snake.y) (hy2 : g.snake.y < 700)
    (hfx : g.snake.x = g.apple.x) (hfy : g.snake.y = g.apple.y) :
    checkSnakeCollision g r1 r2 =
      (false,
        { g with
          score := (g.score + 1) % UINT_MOD
        , snake := { g.snake with length := (g.snake.length + 1) % UINT_MOD }
        , apple :=
            { x := (r1 % (1240 / BLOCK_SIZE)) * BLOCK_SIZE + 20
            , y := (r2 % (680 / BLOCK_SIZE)) * BLOCK_SIZE + 20 } }) := by
  have hs := selfCollision_eq_false g hno
  have hbx : ¬(g.snake.x < 20 ∨ 1260 ≤ g.snake.x) := by omega
  have hby : ¬(g.snake.y < 20 ∨ 700 ≤ g.snake.y) := by omega
  unfold checkSnakeCollision
  rw [hs, if_neg (by simp), if_neg hbx, if_neg hby, if_pos ⟨hfx, hfy⟩]

/-! Claim theorems. -/

/-- C1: on every tick where the snake moves (resolved direction not
`none`), `moveSnake` shifts the body history by one — after the tick
`body[0]` is the pre-tick head, `body[i]` is the pre-tick `body[i-1]` for
`1 ≤ i ≤ length - 2` — and `length` (hence the number of live body
segments, `length - 1`) is unchanged. -/
theorem moveSnake_shifts_history (g : GameState)
    (hlen : 2 ≤ g.snake.length)
    (hd : resolveDirection g.previousDirection g.snake.direction ≠ Direction.none) :
    (moveSnake g).snake.body_x 0 = g.snake.x
    ∧ (moveSnake g).snake.body_y 0 = g.snake.y
    ∧ (∀ i, 1 ≤ i → i ≤ g.snake.length - 2 →
        (moveSnake g).snake.body_x i = g.snake.body_x (i - 1)
        ∧ (moveSnake g).snake.body_y i = g.snake.body_y (i - 1))
    ∧ (moveSnake g).snake.length = g.snake.length := by
  obtain ⟨hL, -, -, hbx, hby⟩ := moveSnake_spec g hd
  refine ⟨?_, ?_, ?_, hL⟩
  · rw [hbx, Function.update_apply, if_pos rfl]
  · rw [hby, Function.update_apply, if_pos rfl]
  · intro i h1 h2
    have hi0 : i ≠ 0 := by omega
    constructor
    · rw [hbx, Function.update_apply, if_neg hi0, shiftDownFrom_apply, if_pos ⟨h1, h2⟩]
    · rw [hby, Function.update_apply, if_neg hi0, shiftDownFrom_apply, if_pos ⟨h1, h2⟩]

/-- Witness for C1 at the concrete state `gMoving`. -/
theorem moveSnake_shifts_history_witness :
    2 ≤ gMoving.snake.length
    ∧ resolveDirection gMoving.previousDirection gMoving.snake.direction ≠ Direction.none
    ∧ ((moveSnake gMoving).snake.body_x 0 = gMoving.snake.x
       ∧ (moveSnake gMoving).snake.body_y 0 = gMoving.snake.y
       ∧ (∀ i, 1 ≤ i → i ≤ gMoving.snake.length - 2 →
           (moveSnake gMoving).snake.body_x i = gMoving.snake.body_x (i - 1)
           ∧ (moveSnake gMoving).snake.body_y i = gMoving.snake.body_y (i - 1))
       ∧ (moveSnake gMoving).snake.length = gMoving.snake.length) :=
  ⟨by decide, by decide, moveSnake_shifts_history gMoving (by decide) (by decide)⟩

/-- C2: the direction consumed at tick time is the previous direction when
the request is its exact reverse, `none` when the previous direction was
`none` and the request is `left`, and the request itself in every other
case. -/
theorem resolveDirection_cases (h r : Direction) :
    resolveDirection h r =
      if (h = Direction.up ∧ r = Direction.down)
        ∨ (h = Direction.right ∧ r = Direction.left)
        ∨ (h = Direction.down ∧ r = Direction.up)
        ∨ (h = Direction.left ∧ r = Direction.right) then h
      else if h = Direction.none ∧ r = Direction.left then Direction.none
      else r := by
  cases h <;> cases r <;> decide

/-- C3: with no head/body overlap, `checkSnakeCollision` is terminal
exactly when the head left the interior `[20, 1260) × [20, 700)`. -/
theorem boundary_collision_iff (g : GameState) (r1 r2 : Nat)
    (hno : ∀ i, i < g.snake.length - 1 →
      ¬(g.snake.x = g.snake.body_x i ∧ g.snake.y = g.snake.body_y i)) :
    (checkSnakeCollision g r1 r2).1 = true ↔
      (g.snake.x < 20 ∨ 1260 ≤ g.snake.x ∨ g.snake.y < 20 ∨ 700 ≤ g.snake.y) := by
  have hs := selfCollision_eq_false g hno
  unfold checkSnakeCollision
  rw [hs, if_neg (by simp)]
  by_cases hbx : g.snake.x < 20 ∨ 1260 ≤ g.snake.x
  · rw [if_pos hbx]
    simp only [true_iff]
    tauto
  · rw [if_neg hbx]
    by_cases hby : g.snake.y < 20 ∨ 700 ≤ g.snake.y
    · rw [if_pos hby]
      simp only [true_iff]
      tauto
    · rw [if_neg hby]
      by_cases hf : g.snake.x = g.apple.x ∧ g.snake.y = g.apple.y
      · rw [if_pos hf]
        simp only [false_iff]
        tauto
      · rw [if_neg hf]
        simp only [false_iff]
        tauto

/-- Witness for C3 at the concrete state `gMoving`. -/
theorem boundary_collision_iff_witness :
    (∀ i, i < gMoving.snake.length - 1 →
      ¬(gMoving.snake.x = gMoving.snake.body_x i ∧ gMoving.snake.y = gMoving.snake.body_y i))
    ∧ ((checkSnakeCollision gMoving 0 0).1 = true ↔
        (gMoving.snake.x < 20 ∨ 1260 ≤ gMoving.snake.x
          ∨ gMoving.snake.y < 20 ∨ 700 ≤ gMoving.snake.y)) :=
  ⟨by decide, boundary_collision_iff gMoving 0 0 (by decide)⟩

/-- C4: eating the apple (head on the apple, inside the interior, no
overlap) yields a non-terminal verdict, increments score and length by
exactly one, leaves the body arrays untouched, and relocates the apple to
`((r1 % 62)*20 + 20, (r2 % 34)*20 + 20)` — a grid-aligned interior
position drawn from the two `rand()` values alone (no re-roll against the
snake). -/
theorem check_food_consumption (g : GameState) (r1 r2 : Nat)
    (hno : ∀ i, i < g.snake.length - 1 →
      ¬(g.snake.x = g.snake.body_x i ∧ g.snake.y = g.snake.body_y i))
    (hx1 : 20 ≤ g.snake.x) (hx2 : g.snake.x < 1260)
    (hy1 : 20 ≤ g.snake.y) (hy2 : g.snake.y < 700)
    (hfx : g.snake.x = g.apple.x) (hfy : g.snake.y = g.apple.y)
    (hsc : g.score + 1 < UINT_MOD) (hln : g.snake.length + 1 < UINT_MOD) :
    (checkSnakeCollision g r1 r2).1 = false
    ∧ (checkSnakeCollision g r1 r2).2.score = g.score + 1
    ∧ (checkSnakeCollision g r1 r2).2.snake.length = g.snake.length + 1
    ∧ (checkSnakeCollision g r1 r2).2.snake.body_x = g.snake.body_x
    ∧ (checkSnakeCollision g r1 r2).2.snake.body_y = g.snake.body_y
    ∧ (checkSnakeCollision g r1 r2).2.apple.x = (r1 % 62) * 20 + 20
    ∧ (checkSnakeCollision g r1 r2).2.apple.y = (r2 % 34) * 20 + 20
    ∧ 20 ≤ (checkSnakeCollision g r1 r2).2.apple.x
    ∧ (checkSnakeCollision g r1 r2).2.apple.x ≤ 1240
    ∧ (checkSnakeCollision g r1 r2).2.apple.x % 20 = 0
    ∧ 20 ≤ (checkSnakeCollision g r1 r2).2.apple.y
    ∧ (checkSnakeCollision g r1 r2).2.apple.y ≤ 680
    ∧ (checkSnakeCollision g r1 r2).2.apple.y % 20 = 0 := by
  rw [check_eats g r1 r2 hno hx1 hx2 hy1 hy2 hfx hfy]
  have e1 : (1240 / BLOCK_SIZE : Nat) = 62 := rfl
  have e2 : (680 / BLOCK_SIZE : Nat) = 34 := rfl
  have h1 : r1 % 62 < 62 := Nat.mod_lt _ (by norm_num)
  have h2 : r2 % 34 < 34 := Nat.mod_lt _ (by norm_num)
  refine ⟨rfl, ?_, ?_, rfl, rfl, ?_, ?_, ?_, ?_, ?_, ?_, ?_, ?_⟩
  · exact Nat.mod_eq_of_lt hsc
  · exact Nat.mod_eq_of_lt hln
  · simp [e1, BLOCK_SIZE]
  · simp [e2, BLOCK_SIZE]
  all_goals simp only [e1, e2, BLOCK_SIZE]
  · omega
  · omega
  · omega
  · omega
  · omega
  · omega

/-- Witness for C4 at the concrete state `gEat`. -/
theorem check_food_consumption_witness :
    (∀ i, i < gEat.snake.length - 1 →
      ¬(gEat.snake.x = gEat.snake.body_x i ∧ gEat.snake.y = gEat.snake.body_y i))
    ∧ 20 ≤ gEat.snake.x ∧ gEat.snake.x < 1260
    ∧ 20 ≤ gEat.snake.y ∧ gEat.snake.y < 700
    ∧ gEat.snake.x = gEat.apple.x ∧ gEat.snake.y = gEat.apple.y
    ∧ gEat.score + 1 < UINT_MOD ∧ gEat.snake.length + 1 < UINT_MOD
    ∧ ((checkSnakeCollision gEat 5 7).1 = false
       ∧ (checkSnakeCollision gEat 5 7).2.score = gEat.score + 1
       ∧ (checkSnakeCollision gEat 5 7).2.snake.length = gEat.snake.length + 1
       ∧ (checkSnakeCollision gEat 5 7).2.snake.body_x = gEat.snake.body_x
       ∧ (checkSnakeCollision gEat 5 7).2.snake.body_y = gEat.snake.body_y
       ∧ (checkSnakeCollision gEat 5 7).2.apple.x = (5 % 62) * 20 + 20
       ∧ (checkSnakeCollision gEat 5 7).2.apple.y = (7 % 34) * 20 + 20
       ∧ 20 ≤ (checkSnakeCollision gEat 5 7).2.apple.x
       ∧ (checkSnakeCollision gEat 5 7).2.apple.x ≤ 1240
       ∧ (checkSnakeCollision gEat 5 7).2.apple.x % 20 = 0
       ∧ 20 ≤ (checkSnakeCollision gEat 5 7).2.apple.y
       ∧ (checkSnakeCollision gEat 5 7).2.apple.y ≤ 680
       ∧ (checkSnakeCollision gEat 5 7).2.apple.y % 20 = 0) :=
  ⟨by decide, by decide, by decide, by decide, by decide, by decide, by decide,
   by decide, by decide,
   check_food_consumption gEat 5 7 (by decide) (by decide) (by decide) (by decide)
     (by decide) (by decide) (by decide) (by decide) (by decide)⟩

/-- C5: head on a live body segment is terminal and the whole game state
(score, length, food, body arrays) is returned unchanged. -/
theorem self_collision_terminal (g : GameState) (r1 r2 : Nat)
    (hhit : ∃ i, i < g.snake.length - 1
      ∧ g.snake.x = g.snake.body_x i ∧ g.snake.y = g.snake.body_y i) :
    (checkSnakeCollision g r1 r2).1 = true
    ∧ (checkSnakeCollision g r1 r2).2 = g := by
  have hs : selfCollision g.snake = true := (selfCollision_iff g.snake).2 hhit
  unfold checkSnakeCollision
  rw [hs, if_pos rfl]
  exact ⟨rfl, rfl⟩

/-- Witness for C5 at the concrete state `gHit`. -/
theorem self_collision_terminal_witness :
    (∃ i, i < gHit.snake.length - 1
      ∧ gHit.snake.x = gHit.snake.body_x i ∧ gHit.snake.y = gHit.snake.body_y i)
    ∧ ((checkSnakeCollision gHit 0 0).1 = true
       ∧ (checkSnakeCollision gHit 0 0).2 = gHit) :=
  ⟨⟨1, by decide, by decide, by decide⟩,
   self_collision_terminal gHit 0 0 ⟨1, by decide, by decide, by decide⟩⟩

/-- C6 counterexample: at `gOutside` the resolved heading is `none`, yet
the per-frame block still evaluates collisions and yields a terminal
verdict — refuting that a `none` tick always yields a non-terminal verdict
regardless of the rest of the state. -/
theorem tick_none_still_checks_collision :
    resolveDirection gOutside.previousDirection gOutside.snake.direction = Direction.none
    ∧ (tick gOutside 0 0).1 = true :=
  ⟨by decide, by decide⟩

/-- C6 amended: on a tick whose resolved heading is `none` the snake does
not move (`moveSnake` returns after only storing the resolved direction,
leaving head, body and previous direction untouched), but collision
evaluation is not skipped: the tick behaves exactly as
`checkSnakeCollision` on the unmoved state. -/
theorem tick_resolved_none_is_static_check (g : GameState) (r1 r2 : Nat)
    (hd : resolveDirection g.previousDirection g.snake.direction = Direction.none) :
    moveSnake g = { g with snake := { g.snake with direction := Direction.none } }
    ∧ tick g r1 r2
        = checkSnakeCollision { g with snake := { g.snake with direction := Direction.none } } r1 r2 := by
  have h := moveSnake_none g hd
  refine ⟨h, ?_⟩
  unfold tick
  rw [h]

/-- Witness for the amended C6 at the initial game state. -/
theorem tick_resolved_none_is_static_check_witness :
    resolveDirection initialGame.previousDirection initialGame.snake.direction = Direction.none
    ∧ (moveSnake initialGame
        = { initialGame with snake := { initialGame.snake with direction := Direction.none } }
       ∧ tick initialGame 0 0
          = checkSnakeCollision
              { initialGame with snake := { initialGame.snake with direction := Direction.none } } 0 0) :=
  ⟨by decide, tick_resolved_none_is_static_check initialGame 0 0 (by decide)⟩

/-- C7 (documents the code bug): a poll reporting a disconnected
controller sets `vpad_fatal`, but the loop iteration does not break, and a
later iteration whose clock fires still runs a full tick (the snake moves
from x = 300 to x = 320) — the fatal input fault never exits the loop. -/
theorem input_fault_does_not_stop_loop :
    (loopBody 100 lsMoving inpFault).2 = false
    ∧ (loopBody 100 lsMoving inpFault).1.vpad_fatal = true
    ∧ lsMoving.game.snake.x = 300
    ∧ (loopBody 100 (loopBody 100 lsMoving inpFault).1 inpTick).1.game.snake.x = 320 :=
  ⟨by decide, by decide, by decide, by decide⟩

/-- C8: the frame clock accumulates each elapsed delta; a logical tick
fires exactly when the accumulator strictly exceeds the interval; firing
subtracts exactly one interval (not a reset to zero), so over any run the
accumulator equals the initial value plus all elapsed time minus one
interval per fired tick — the fractional remainder always carries over. -/
theorem frame_clock_spec (interval tc d : Int) (ds : List Int) :
    (clockStep interval tc d).1 = decide (tc + d > interval)
    ∧ (clockStep interval tc d).2 = (if tc + d > interval then tc + d - interval else tc + d)
    ∧ (clockRun interval tc ds).1
        = tc + ds.sum - ((clockRun interval tc ds).2 : Int) * interval := by
  refine ⟨?_, ?_, ?_⟩
  · unfold clockStep
    by_cases h : tc + d > interval
    · rw [if_pos h]
      simp [h]
    · rw [if_neg h]
      simp [h]
  · unfold clockStep
    by_cases h : tc + d > interval
    · rw [if_pos h, if_pos h]
    · rw [if_neg h, if_neg h]
  · induction ds generalizing tc with
    | nil => simp [clockRun]
    | cons d' ds ih =>
        simp only [clockRun, clockStep, List.sum_cons]
        by_cases h : tc + d' > interval
        · simp only [if_pos h]
          rw [ih]
          push_cast
          ring
        · simp only [if_neg h]
          rw [ih]
          push_cast
          ring

/-- The input mapper can only keep the direction or set one of the four
concrete directions: it never produces `none` from a non-`none` one. -/
theorem handleGamepadInput_ne_none (p : VPADReadResult) (dir : Direction) (fatal : Bool)
    (hd : dir ≠ Direction.none) : (handleGamepadInput p dir fatal).1 ≠ Direction.none := by
  cases p with
  | success t =>
      obtain ⟨u, r, dn, l⟩ := t
      cases u <;> cases r <;> cases dn <;> cases l <;> simp_all [handleGamepadInput]
  | noSamples => exact hd
  | invalidController => exact hd
  | unknownError => exact hd

/-- Anti-reversal resolution of two non-`none` directions is non-`none`
(it returns either the request or the previous direction). -/
theorem resolveDirection_ne_none (p r : Direction)
    (hp : p ≠ Direction.none) (hr : r ≠ Direction.none) :
    resolveDirection p r ≠ Direction.none := by
  cases p <;> cases r <;> first
    | exact absurd rfl hp
    | exact absurd rfl hr
    | decide

/-- On a moving tick, both direction fields after the full per-frame block
equal the resolved direction. -/
theorem tick_dirs (g : GameState) (r1 r2 : Nat)
    (hres : resolveDirection g.previousDirection g.snake.direction ≠ Direction.none) :
    (tick g r1 r2).2.previousDirection
      = resolveDirection g.previousDirection g.snake.direction
    ∧ (tick g r1 r2).2.snake.direction
      = resolveDirection g.previousDirection g.snake.direction := by
  obtain ⟨-, hp, hd, -, -⟩ := moveSnake_spec g hres
  obtain ⟨cp, cd⟩ := check_preserve_dirs (moveSnake g) r1 r2
  unfold tick
  exact ⟨cp.trans hp, cd.trans hd⟩

/-- One loop iteration preserves "previous direction and requested
direction are both non-`none`". -/
theorem loopBody_inv (interval : Int) (ls : LoopState) (inp : IterInput)
    (hprev : ls.game.previousDirection ≠ Direction.none)
    (hdir : ls.game.snake.direction ≠ Direction.none) :
    (loopBody interval ls inp).1.game.previousDirection ≠ Direction.none
    ∧ (loopBody interval ls inp).1.game.snake.direction ≠ Direction.none := by
  have hd1 : (handleGamepadInput inp.poll ls.game.snake.direction ls.vpad_fatal).1
      ≠ Direction.none :=
    handleGamepadInput_ne_none _ _ _ hdir
  have hres : resolveDirection ls.game.previousDirection
      (handleGamepadInput inp.poll ls.game.snake.direction ls.vpad_fatal).1
      ≠ Direction.none :=
    resolveDirection_ne_none _ _ hprev hd1
  unfold loopBody
  by_cases hc : (clockStep interval ls.timeCounter inp.delta).1
  · simp only [hc, if_true]
    obtain ⟨hp, hd⟩ := tick_dirs
      { ls.game with snake := { ls.game.snake with direction :=
          (handleGamepadInput inp.poll ls.game.snake.direction ls.vpad_fatal).1 } }
      inp.r1 inp.r2 hres
    constructor
    · rw [hp]
      exact hres
    · rw [hd]
      exact hres
  · simp only [Bool.not_eq_true] at hc
    simp only [hc, Bool.false_eq_true, if_false]
    exact ⟨hprev, hd1⟩

/-- The non-`none` direction invariant is preserved by any run of the main
loop. -/
theorem loopRun_inv (interval : Int) (ls : LoopState) (inps : List IterInput)
    (hprev : ls.game.previousDirection ≠ Direction.none)
    (hdir : ls.game.snake.direction ≠ Direction.none) :
    (loopRun interval ls inps).game.previousDirection ≠ Direction.none
    ∧ (loopRun interval ls inps).game.snake.direction ≠ Direction.none := by
  induction inps generalizing ls with
  | nil => exact ⟨hprev, hdir⟩
  | cons inp rest ih =>
      obtain ⟨h1, h2⟩ := loopBody_inv interval ls inp hprev hdir
      unfold loopRun
      by_cases hb : (loopBody interval ls inp).2
      · simp only [hb, if_true]
        exact ⟨h1, h2⟩
      · simp only [Bool.not_eq_true] at hb
        simp only [hb, Bool.false_eq_true, if_false]
        exact ih _ h1 h2

/-- C9: once the first move has been persisted (both the previous
direction and the pending requested direction are concrete), no later
iteration of the main loop can bring them back to `none`, and the heading
resolved at any later tick — after any further input poll — is never
`none`: the snake never stops moving again. -/
theorem resolved_heading_never_none_again (interval : Int) (ls : LoopState)
    (hprev : ls.game.previousDirection ≠ Direction.none)
    (hdir : ls.game.snake.direction ≠ Direction.none)
    (inps : List IterInput) (p : VPADReadResult) (fatal : Bool) :
    (loopRun interval ls inps).game.previousDirection ≠ Direction.none
    ∧ (loopRun interval ls inps).game.snake.direction ≠ Direction.none
    ∧ resolveDirection (loopRun interval ls inps).game.previousDirection
        (handleGamepadInput p (loopRun interval ls inps).game.snake.direction fatal).1
      ≠ Direction.none := by
  obtain ⟨h1, h2⟩ := loopRun_inv interval ls inps hprev hdir
  exact ⟨h1, h2, resolveDirection_ne_none _ _ h1 (handleGamepadInput_ne_none _ _ _ h2)⟩

/-- Witness for C9 at the concrete loop state `lsMoving` with one firing
iteration. -/
theorem resolved_heading_never_none_again_witness :
    lsMoving.game.previousDirection ≠ Direction.none
    ∧ lsMoving.game.snake.direction ≠ Direction.none
    ∧ ((loopRun 100 lsMoving [inpTick]).game.previousDirection ≠ Direction.none
       ∧ (loopRun 100 lsMoving [inpTick]).game.snake.direction ≠ Direction.none
       ∧ resolveDirection (loopRun 100 lsMoving [inpTick]).game.previousDirection
           (handleGamepadInput VPADReadResult.noSamples
             (loopRun 100 lsMoving [inpTick]).game.snake.direction false).1
         ≠ Direction.none) :=
  ⟨by decide, by decide,
   resolved_heading_never_none_again 100 lsMoving (by decide) (by decide)
     [inpTick] VPADReadResult.noSamples false⟩

/-- C10: after a tick whose collision phase consumed the apple (in state
`g`, the post-movement state of that tick), the body shift of the next moving
tick covers one additional slot: the new last live segment, index
`length - 2` of the incremented length (= `g.length - 1`), receives the
pre-shift position of the previous last segment (index `g.length - 2`),
and the whole live region `0 .. g.length - 1` is exactly the old head
followed by the old body shifted by one — the snake lengthens at the tail
one tick after eating. -/
theorem growth_extends_tail (g : GameState) (r1 r2 : Nat) (d : Direction)
    (hno : ∀ i, i < g.snake.length - 1 →
      ¬(g.snake.x = g.snake.body_x i ∧ g.snake.y = g.snake.body_y i))
    (hx1 : 20 ≤ g.snake.x) (hx2 : g.snake.x < 1260)
    (hy1 : 20 ≤ g.snake.y) (hy2 : g.snake.y < 700)
    (hfx : g.snake.x = g.apple.x) (hfy : g.snake.y = g.apple.y)
    (hL : 2 ≤ g.snake.length) (hln : g.snake.length + 1 < UINT_MOD)
    (hres : resolveDirection g.previousDirection d ≠ Direction.none) :
    (checkSnakeCollision g r1 r2).2.snake.length = g.snake.length + 1
    ∧ (eatThenNextMove g r1 r2 d).snake.length = g.snake.length + 1
    ∧ (eatThenNextMove g r1 r2 d).snake.body_x (g.snake.length - 1)
        = g.snake.body_x (g.snake.length - 2)
    ∧ (eatThenNextMove g r1 r2 d).snake.body_y (g.snake.length - 1)
        = g.snake.body_y (g.snake.length - 2)
    ∧ ∀ i, i < g.snake.length →
        ((eatThenNextMove g r1 r2 d).snake.body_x i
          = if i = 0 then g.snake.x else g.snake.body_x (i - 1))
        ∧ ((eatThenNextMove g r1 r2 d).snake.body_y i
          = if i = 0 then g.snake.y else g.snake.body_y (i - 1)) := by
  have hceq := check_eats g r1 r2 hno hx1 hx2 hy1 hy2 hfx hfy
  have hmod : (g.snake.length + 1) % UINT_MOD = g.snake.length + 1 := Nat.mod_eq_of_lt hln
  have heq : eatThenNextMove g r1 r2 d
      = moveSnake
          { g with
            score := (g.score + 1) % UINT_MOD
          , snake := { g.snake with
              length := (g.snake.length + 1) % UINT_MOD, direction := d }
          , apple :=
              { x := (r1 % (1240 / BLOCK_SIZE)) * BLOCK_SIZE + 20
              , y := (r2 % (680 / BLOCK_SIZE)) * BLOCK_SIZE + 20 } } := by
    unfold eatThenNextMove
    rw [hceq]
  obtain ⟨hMlen, -, -, hMbx, hMby⟩ :=
    moveSnake_spec
      { g with
        score := (g.score + 1) % UINT_MOD
      , snake := { g.snake with
          length := (g.snake.length + 1) % UINT_MOD, direction := d }
      , apple :=
          { x := (r1 % (1240 / BLOCK_SIZE)) * BLOCK_SIZE + 20
          , y := (r2 % (680 / BLOCK_SIZE)) * BLOCK_SIZE + 20 } }
      (by simpa using hres)
  have hbodyAll : ∀ i, i < g.snake.length →
      ((eatThenNextMove g r1 r2 d).snake.body_x i
        = if i = 0 then g.snake.x else g.snake.body_x (i - 1))
      ∧ ((eatThenNextMove g r1 r2 d).snake.body_y i
        = if i = 0 then g.snake.y else g.snake.body_y (i - 1)) := by
    intro i hi
    constructor
    · rw [heq, hMbx]
      show Function.update
          (shiftDownFrom g.snake.body_x ((g.snake.length + 1) % UINT_MOD - 2)) 0
          g.snake.x i
        = if i = 0 then g.snake.x else g.snake.body_x (i - 1)
      rw [hmod, Function.update_apply, shiftDownFrom_apply]
      by_cases hi0 : i = 0
      · simp [hi0]
      · have hrange : 1 ≤ i ∧ i ≤ g.snake.length + 1 - 2 := by omega
        simp only [if_neg hi0]
        rw [if_pos hrange]
    · rw [heq, hMby]
      show Function.update
          (shiftDownFrom g.snake.body_y ((g.snake.length + 1) % UINT_MOD - 2)) 0
          g.snake.y i
        = if i = 0 then g.snake.y else g.snake.body_y (i - 1)
      rw [hmod, Function.update_apply, shiftDownFrom_apply]
      by_cases hi0 : i = 0
      · simp [hi0]
      · have hrange : 1 ≤ i ∧ i ≤ g.snake.length + 1 - 2 := by omega
        simp only [if_neg hi0]
        rw [if_pos hrange]
  refine ⟨?_, ?_, ?_, ?_, hbodyAll⟩
  · rw [hceq]
    exact hmod
  · rw [heq, hMlen]
    exact hmod
  · obtain ⟨hx, -⟩ := hbodyAll (g.snake.length - 1) (by omega)
    have e : g.snake.length - 1 - 1 = g.snake.length - 2 := by omega
    rw [e] at hx
    rw [hx, if_neg (by omega)]
  · obtain ⟨-, hy⟩ := hbodyAll (g.snake.length - 1) (by omega)
    have e : g.snake.length - 1 - 1 = g.snake.length - 2 := by omega
    rw [e] at hy
    rw [hy, if_neg (by omega)]

/-- Witness for C10 at the concrete state `gEat` with next direction
`right`. -/
theorem growth_extends_tail_witness :
    (∀ i, i < gEat.snake.length - 1 →
      ¬(gEat.snake.x = gEat.snake.body_x i ∧ gEat.snake.y = gEat.snake.body_y i))
    ∧ 20 ≤ gEat.snake.x ∧ gEat.snake.x < 1260
    ∧ 20 ≤ gEat.snake.y ∧ gEat.snake.y < 700
    ∧ gEat.snake.x = gEat.apple.x ∧ gEat.snake.y = gEat.apple.y
    ∧ 2 ≤ gEat.snake.length ∧ gEat.snake.length + 1 < UINT_MOD
    ∧ resolveDirection gEat.previousDirection Direction.right ≠ Direction.none
    ∧ ((checkSnakeCollision gEat 5 7).2.snake.length = gEat.snake.length + 1
       ∧ (eatThenNextMove gEat 5 7 Direction.right).snake.length = gEat.snake.length + 1
       ∧ (eatThenNextMove gEat 5 7 Direction.right).snake.body_x (gEat.snake.length - 1)
           = gEat.snake.body_x (gEat.snake.length - 2)
       ∧ (eatThenNextMove gEat 5 7 Direction.right).snake.body_y (gEat.snake.length - 1)
           = gEat.snake.body_y (gEat.snake.length - 2)
       ∧ ∀ i, i < gEat.snake.length →
           ((eatThenNextMove gEat 5 7 Direction.right).snake.body_x i
             = if i = 0 then gEat.snake.x else gEat.snake.body_x (i - 1))
           ∧ ((eatThenNextMove gEat 5 7 Direction.right).snake.body_y i
             = if i = 0 then gEat.snake.y else gEat.snake.body_y (i - 1))) :=
  ⟨by decide, by decide, by decide, by decide, by decide, by decide, by decide,
   by decide, by decide, by decide,
   growth_extends_tail gEat 5 7 Direction.right (by decide) (by decide) (by decide)
     (by decide) (by decide) (by decide) (by decide) (by decide) (by decide) (by decide)⟩

end SnakeU
